import Mathlib

/-!
# Verification of the daily-fish blog backend (Hono + Prisma on Cloudflare Workers)

Shallow embedding of `src/index.ts` (the five CRUD handlers over the
Post/User schema of `prisma/schema.prisma`, plus the worker `fetch`
entry point with its lazily initialized Prisma client singleton).

Modelling conventions:
* JSON body fields that may be absent (`undefined`) are `Option`-typed;
  JavaScript truthiness of a string-valued field (`!x`) is `truthy`:
  absent (`none`) and the empty string are falsy, every other string truthy.
* The storage layer (Prisma + Postgres) is an external collaborator; its
  operations are modelled as an in-memory list of `Post` rows and `User`
  rows, with `findUnique`/`create`/`update`/`delete` translated to first
  match lookup / append / replace-first / remove-first, which matches the
  unique-`id` schema.  The write semantics of `update` for fields the
  caller omitted (the handler passes `undefined` through) are modelled
  from the spec §4.5: all three fields `title`, `content`, `published`
  are overwritten with the supplied (possibly absent) values, which is
  why the mutable columns are `Option`-typed in the model.
* `c.req.json()` throwing on a malformed body is modelled by handlers
  taking an `Option`-al parsed body and returning `Except`.
-/

namespace DailyFish

/-- A stored `Post` row (`prisma/schema.prisma`).  `title`, `content` and
`published` are `Option`-typed because the PUT handler writes the raw
(possibly `undefined`) body values into them; `id`, `createdAt` and
`authorId` are set at creation and never written again. -/
structure Post where
  id : String
  createdAt : Nat
  title : Option String
  content : Option String
  authorId : String
  published : Option Bool
deriving DecidableEq, Repr

/-- A `User` row (`auth.users`): only `id` and `email` are read by this core. -/
structure User where
  id : String
  email : String
deriving DecidableEq, Repr

/-- The author projection `select { id, email }` used by the two GET
handlers: exactly the author's `id` and `email`, no other fields. -/
structure AuthorInfo where
  id : String
  email : String
deriving DecidableEq, Repr

/-- A post as returned by the list / get-one handlers: the row together
with the included author projection (`none` if the foreign key dangles,
which the external database forbids). -/
structure PostWithAuthor where
  post : Post
  author : Option AuthorInfo
deriving DecidableEq, Repr

/-- The database state seen by the handlers. -/
structure Store where
  posts : List Post
  users : List User
deriving DecidableEq, Repr

/-- JSON body of `POST /api/posts`.  The handler destructures only
`title`, `content`, `authorId`; a `published` member may be present in
the request but is never read. -/
structure CreateBody where
  title : Option String
  content : Option String
  authorId : Option String
  published : Option Bool
deriving DecidableEq, Repr

/-- JSON body of `PUT /api/posts/:id`. -/
structure UpdateBody where
  title : Option String
  content : Option String
  published : Option Bool
  currentUserId : Option String
deriving DecidableEq, Repr

/-- JSON body of `DELETE /api/posts/:id` (only `currentUserId` is read). -/
structure DeleteBody where
  currentUserId : Option String
deriving DecidableEq, Repr

/-- Response bodies produced by the handlers. -/
inductive Body where
  | err (msg : String)
  | errDetails (msg details : String)
  | post (p : Post)
  | postWithAuthor (p : PostWithAuthor)
  | postList (l : List PostWithAuthor)
  | text (s : String)
  | empty
deriving DecidableEq, Repr

/-- An HTTP response: status code and JSON (or text / empty) body. -/
structure Response where
  status : Nat
  body : Body
deriving DecidableEq, Repr

/-- JavaScript truthiness of a possibly-absent string value: `undefined`
(or `null`) and `""` are falsy, every other string is truthy. -/
def truthy : Option String → Bool
  | none => false
  | some s => !s.isEmpty

/-- `prisma.post.findUnique({ where: { id } })`: first row with that id. -/
def findPost (ps : List Post) (id : String) : Option Post :=
  ps.find? (fun p => p.id == id)

/-- The author inclusion `include: { author: { select: { id, email } } }`:
look up the author and project `{ id, email }`. -/
def lookupAuthor (us : List User) (authorId : String) : Option AuthorInfo :=
  (us.find? (fun u => u.id == authorId)).map (fun u => ⟨u.id, u.email⟩)

/-- `prisma.post.update({ where: { id }, data })`: replace the unique row
with that id (the first match, ids being unique) by `newP`. -/
def replaceById (ps : List Post) (id : String) (newP : Post) : List Post :=
  match ps with
  | [] => []
  | p :: rest => if p.id == id then newP :: rest else p :: replaceById rest id newP

/-- `prisma.post.delete({ where: { id } })`: remove the unique row with
that id (the first match, ids being unique). -/
def removeById (ps : List Post) (id : String) : List Post :=
  match ps with
  | [] => []
  | p :: rest => if p.id == id then rest else p :: removeById rest id

/-- Descending `createdAt` order used by `orderBy: { createdAt: 'desc' }`. -/
def createdDesc (a b : Post) : Prop := b.createdAt ≤ a.createdAt

instance : DecidableRel createdDesc := fun a b => Nat.decLe b.createdAt a.createdAt

instance : IsTotal Post createdDesc := ⟨fun a b => (Nat.le_total b.createdAt a.createdAt)⟩

instance : IsTrans Post createdDesc :=
  ⟨fun _ _ _ h1 h2 => Nat.le_trans h2 h1⟩

/-- The rows returned by `GET /api/posts`: all posts ordered by
`createdAt` descending, each with the author `{ id, email }` included. -/
def listPostsRows (s : Store) : List PostWithAuthor :=
  (s.posts.insertionSort createdDesc).map (fun p => ⟨p, lookupAuthor s.users p.authorId⟩)

/-- Handler of `GET /api/posts` (`src/index.ts` lines 51–71), success path. -/
def listPosts (s : Store) : Response :=
  ⟨200, .postList (listPostsRows s)⟩

/-- Handler of `GET /api/posts/:id` (`src/index.ts` lines 74–96),
success / not-found paths. -/
def getPost (s : Store) (id : String) : Response :=
  match findPost s.posts id with
  | none => ⟨404, .err "Post not found"⟩
  | some p => ⟨200, .postWithAuthor ⟨p, lookupAuthor s.users p.authorId⟩⟩

/-- Handler of `POST /api/posts` (`src/index.ts` lines 99–128).
`freshId` and `now` stand for the storage-generated `uuid()` default and
`now()` default of the schema.  The handler reads only `title`,
`content`, `authorId` from the body and forces `published: true`. -/
def createPost (s : Store) (b : CreateBody) (freshId : String) (now : Nat) :
    Response × Store :=
  if !(truthy b.title && truthy b.content && truthy b.authorId) then
    (⟨400, .err "Title, content, and author ID are required"⟩, s)
  else
    let newPost : Post :=
      { id := freshId, createdAt := now, title := b.title, content := b.content,
        authorId := b.authorId.getD "", published := some true }
    (⟨201, .post newPost⟩, { s with posts := s.posts ++ [newPost] })

/-- Handler of `PUT /api/posts/:id` (`src/index.ts` lines 131–166) on an
already-parsed JSON body: 401 on falsy `currentUserId`, then existence
lookup (404), then ownership check (403), then full overwrite of
`title`, `content`, `published` with the body values. -/
def updatePost (s : Store) (id : String) (b : UpdateBody) : Response × Store :=
  if !truthy b.currentUserId then
    (⟨401, .err "Authentication required"⟩, s)
  else
    match findPost s.posts id with
    | none => (⟨404, .err "Post not found"⟩, s)
    | some p =>
      if !(some p.authorId == b.currentUserId) then
        (⟨403, .err "Unauthorized: You are not the author of this post"⟩, s)
      else
        let updated : Post :=
          { p with title := b.title, content := b.content, published := b.published }
        (⟨200, .post updated⟩, { s with posts := replaceById s.posts id updated })

/-- Handler of `DELETE /api/posts/:id` (`src/index.ts` lines 169–199) on
an already-parsed JSON body: 401 on falsy `currentUserId`, then
existence lookup (404), then ownership check (403), then delete, 204. -/
def deletePost (s : Store) (id : String) (b : DeleteBody) : Response × Store :=
  if !truthy b.currentUserId then
    (⟨401, .err "Authentication required"⟩, s)
  else
    match findPost s.posts id with
    | none => (⟨404, .err "Post not found"⟩, s)
    | some p =>
      if !(some p.authorId == b.currentUserId) then
        (⟨403, .err "Unauthorized: You are not the author of this post"⟩, s)
      else
        (⟨204, .empty⟩, { s with posts := removeById s.posts id })

/-- The PUT handler including the `await c.req.json()` step, which runs
before the authentication check and outside the `try` block: a malformed
body (`none`) makes the handler throw (`Except.error`) before producing
any response. -/
def handlePut (s : Store) (id : String) (rawBody : Option UpdateBody) :
    Except String (Response × Store) :=
  match rawBody with
  | none => .error "SyntaxError: Unexpected end of JSON input"
  | some b => .ok (updatePost s id b)

/-- The DELETE handler including the `await c.req.json()` step (before
the authentication check, outside the `try` block). -/
def handleDelete (s : Store) (id : String) (rawBody : Option DeleteBody) :
    Except String (Response × Store) :=
  match rawBody with
  | none => .error "SyntaxError: Unexpected end of JSON input"
  | some b => .ok (deletePost s id b)

/-! ### Worker entry point (`export default { fetch }`, lines 202–217) -/

/-- Character-list prefix test, equivalent to `String.startsWith` (used
instead of it so that the check evaluates by kernel reduction). -/
def hasPrefixChars : List Char → List Char → Bool
  | [], _ => true
  | _ :: _, [] => false
  | a :: as, b :: bs => a == b && hasPrefixChars as bs

/-- The configuration validity test of the `fetch` entry point:
`env.DATABASE_URL_ACCELERATE` must be truthy, a string, and start with
`prisma://`.  The value is modelled as `Option String` (absent or a
string binding; the `typeof` test cannot fail on a string binding). -/
def validDbUrl : Option String → Bool
  | none => false
  | some s => !s.isEmpty && hasPrefixChars "prisma://".data s.data

/-- Outcome of one `fetch` invocation.  `earlyResponse = some r` means
`r` was returned before `app.fetch` ran (no route handler executed);
`newPrisma` is the singleton after the call; `checkedConfig` records
whether the configuration validity test was evaluated on this request
(in the source it runs exactly when `!prisma`). -/
structure FetchResult where
  earlyResponse : Option Response
  newPrisma : Option String
  checkedConfig : Bool
deriving DecidableEq, Repr

/-- The plain-text 500 returned on a misconfigured database URL. -/
def misconfigResponse : Response :=
  ⟨500, .text "Internal Server Error: Database URL misconfiguration"⟩

/-- One invocation of the worker `fetch` export: if the `prisma`
singleton is set, delegate to the app unconditionally; otherwise check
the configuration, either failing with a plain-text 500 or initializing
the singleton with the given URL and delegating. -/
def workerFetch (prisma : Option String) (envUrl : Option String) : FetchResult :=
  match prisma with
  | some u => ⟨none, some u, false⟩
  | none =>
    if validDbUrl envUrl then ⟨none, envUrl, true⟩
    else ⟨some misconfigResponse, none, true⟩

/-- Run a sequence of requests (each with the environment it observes)
from a given singleton state, threading the singleton through. -/
def runRequests (prisma : Option String) : List (Option String) → List FetchResult
  | [] => []
  | e :: es =>
    let r := workerFetch prisma e
    r :: runRequests r.newPrisma es

/-! ### Helper lemmas about the modelled storage operations -/

/-- A freshly generated id is found in the store after `create` appends it. -/
theorem findPost_append_fresh (ps : List Post) (newP : Post)
    (hfresh : ∀ p ∈ ps, p.id ≠ newP.id) :
    findPost (ps ++ [newP]) newP.id = some newP := by
  induction ps with
  | nil => simp [findPost]
  | cons q rest ih =>
    have hq : (q.id == newP.id) = false :=
      beq_eq_false_iff_ne.mpr (hfresh q (List.mem_cons_self q rest))
    simpa [findPost, List.cons_append, List.find?_cons, hq] using
      ih (fun p hp => hfresh p (List.mem_cons_of_mem q hp))

/-- After `update` replaces the row with a given id, lookup by that id
returns the replacement. -/
theorem findPost_replaceById (ps : List Post) (id : String) (newP : Post)
    (hid : (newP.id == id) = true) (p : Post) (hp : findPost ps id = some p) :
    findPost (replaceById ps id newP) id = some newP := by
  induction ps with
  | nil => simp [findPost] at hp
  | cons q rest ih =>
    by_cases hq : (q.id == id) = true
    · simp [replaceById, hq, findPost, List.find?_cons, hid]
    · have hp' : findPost rest id = some p := by
        simpa [findPost, List.find?_cons, hq] using hp
      simpa [replaceById, hq, findPost, List.find?_cons] using ih hp'

/-- With unique ids, deleting the row with a given id leaves no row with
that id behind. -/
theorem findPost_removeById (ps : List Post) (id : String)
    (hnd : (ps.map Post.id).Nodup) (p : Post) (hp : findPost ps id = some p) :
    findPost (removeById ps id) id = none := by
  induction ps with
  | nil => simp [findPost] at hp
  | cons q rest ih =>
    by_cases hq : (q.id == id) = true
    · have hqid : q.id = id := eq_of_beq hq
      have hnotin : ∀ x ∈ rest, ¬((x.id == id) = true) := by
        intro x hx hbeq
        exact (List.nodup_cons.mp hnd).1
          (hqid ▸ (eq_of_beq hbeq) ▸ List.mem_map_of_mem Post.id hx)
      simp only [removeById, hq, if_true, findPost]
      exact List.find?_eq_none.mpr hnotin
    · have hp' : findPost rest id = some p := by
        simpa [findPost, List.find?_cons, hq] using hp
      simpa [removeById, hq, findPost, List.find?_cons] using
        ih (List.nodup_cons.mp hnd).2 hp'

/-! ### Claim theorems -/

/-- Claim C2: a PUT or DELETE whose well-formed JSON body has a missing
or falsy `currentUserId` yields 401 `{error: "Authentication required"}`
with the store untouched, for every store — in particular also when the
id refers to no stored post — so no existence check is observable and no
lookup or mutation occurs. -/
theorem missing_currentUserId_401 (s : Store) (id : String)
    (bu : UpdateBody) (bd : DeleteBody)
    (hu : truthy bu.currentUserId = false) (hd : truthy bd.currentUserId = false) :
    updatePost s id bu = (⟨401, .err "Authentication required"⟩, s) ∧
    deletePost s id bd = (⟨401, .err "Authentication required"⟩, s) := by
  constructor <;> simp [updatePost, deletePost, hu, hd]

/-- Witness for C2 on an empty store (the id refers to no stored post):
an absent `currentUserId` for PUT and a present-but-falsy empty string
for DELETE both give the 401. -/
theorem missing_currentUserId_401_witness :
    updatePost ⟨[], []⟩ "p1" ⟨some "T", some "C", some true, none⟩ =
      (⟨401, .err "Authentication required"⟩, ⟨[], []⟩) ∧
    deletePost ⟨[], []⟩ "p1" ⟨some ""⟩ =
      (⟨401, .err "Authentication required"⟩, ⟨[], []⟩) :=
  missing_currentUserId_401 ⟨[], []⟩ "p1" ⟨some "T", some "C", some true, none⟩
    ⟨some ""⟩ (by decide) (by decide)

/-- Claim C1: a PUT or DELETE on a stored post whose body carries a
(truthy) `currentUserId` different from the post's stored `authorId`
returns 403 `{error: "Unauthorized: You are not the author of this
post"}` and returns the store completely unchanged (no field of any
stored post changes, nothing is deleted). -/
theorem wrong_author_403 (s : Store) (id : String)
    (bu : UpdateBody) (bd : DeleteBody) (p : Post)
    (hp : findPost s.posts id = some p)
    (hu : truthy bu.currentUserId = true) (hneu : bu.currentUserId ≠ some p.authorId)
    (hd : truthy bd.currentUserId = true) (hned : bd.currentUserId ≠ some p.authorId) :
    updatePost s id bu =
      (⟨403, .err "Unauthorized: You are not the author of this post"⟩, s) ∧
    deletePost s id bd =
      (⟨403, .err "Unauthorized: You are not the author of this post"⟩, s) := by
  have hbu : (some p.authorId == bu.currentUserId) = false :=
    beq_eq_false_iff_ne.mpr (fun h => hneu h.symm)
  have hbd : (some p.authorId == bd.currentUserId) = false :=
    beq_eq_false_iff_ne.mpr (fun h => hned h.symm)
  constructor <;> simp [updatePost, deletePost, hu, hd, hp, hbu, hbd]

/-- Witness for C1: a store holding one post by author `u1`; requests by
`u2` get 403 and the store is returned unchanged. -/
theorem wrong_author_403_witness :
    updatePost ⟨[⟨"p1", 5, some "T", some "C", "u1", some true⟩], []⟩ "p1"
        ⟨some "X", some "Y", some false, some "u2"⟩ =
      (⟨403, .err "Unauthorized: You are not the author of this post"⟩,
       ⟨[⟨"p1", 5, some "T", some "C", "u1", some true⟩], []⟩) ∧
    deletePost ⟨[⟨"p1", 5, some "T", some "C", "u1", some true⟩], []⟩ "p1" ⟨some "u2"⟩ =
      (⟨403, .err "Unauthorized: You are not the author of this post"⟩,
       ⟨[⟨"p1", 5, some "T", some "C", "u1", some true⟩], []⟩) :=
  wrong_author_403 ⟨[⟨"p1", 5, some "T", some "C", "u1", some true⟩], []⟩ "p1"
    ⟨some "X", some "Y", some false, some "u2"⟩ ⟨some "u2"⟩
    ⟨"p1", 5, some "T", some "C", "u1", some true⟩
    (by decide) (by decide) (by decide) (by decide) (by decide)

/-- Claim C6: a POST whose body has any of `title`, `content`,
`authorId` missing or falsy returns 400 `{error: "Title, content, and
author ID are required"}` and leaves the store unchanged (no post is
created). -/
theorem create_missing_fields_400 (s : Store) (b : CreateBody)
    (freshId : String) (now : Nat)
    (h : truthy b.title = false ∨ truthy b.content = false ∨ truthy b.authorId = false) :
    createPost s b freshId now =
      (⟨400, .err "Title, content, and author ID are required"⟩, s) := by
  rcases h with h | h | h <;> simp [createPost, h]

/-- Witness for C6: a body with a truthy title, an empty (falsy)
content and a present authorId is rejected with 400 and the store (one
existing post) is unchanged. -/
theorem create_missing_fields_400_witness :
    createPost ⟨[⟨"p1", 5, some "T", some "C", "u1", some true⟩], []⟩
        ⟨some "New", some "", some "u1", some false⟩ "p2" 9 =
      (⟨400, .err "Title, content, and author ID are required"⟩,
       ⟨[⟨"p1", 5, some "T", some "C", "u1", some true⟩], []⟩) :=
  create_missing_fields_400 ⟨[⟨"p1", 5, some "T", some "C", "u1", some true⟩], []⟩
    ⟨some "New", some "", some "u1", some false⟩ "p2" 9 (Or.inr (Or.inl (by decide)))

/-- Claim C5: for an id with no stored post, GET returns 404
`{error: "Post not found"}`, and PUT / DELETE with a truthy
`currentUserId` return the same 404 with the store unchanged — the
existence check precedes the ownership check, so no 403 can mask the
404; moreover (ids being unique) a successful DELETE (204) followed by
a DELETE of the same id returns 404, not 204, again without touching
the store. -/
theorem nonexistent_id_404 (s : Store) (id : String)
    (bu : UpdateBody) (bd : DeleteBody) :
    (findPost s.posts id = none →
      getPost s id = ⟨404, .err "Post not found"⟩ ∧
      (truthy bu.currentUserId = true →
        updatePost s id bu = (⟨404, .err "Post not found"⟩, s)) ∧
      (truthy bd.currentUserId = true →
        deletePost s id bd = (⟨404, .err "Post not found"⟩, s))) ∧
    ((s.posts.map Post.id).Nodup →
      ∀ p, findPost s.posts id = some p →
        truthy bd.currentUserId = true → bd.currentUserId = some p.authorId →
        (deletePost s id bd).1 = ⟨204, .empty⟩ ∧
        deletePost (deletePost s id bd).2 id bd =
          (⟨404, .err "Post not found"⟩, (deletePost s id bd).2)) := by
  constructor
  · intro hnone
    refine ⟨?_, ?_, ?_⟩
    · simp [getPost, hnone]
    · intro hu; simp [updatePost, hu, hnone]
    · intro hd; simp [deletePost, hd, hnone]
  · intro hnd p hp htr hown
    have hb : (some p.authorId == bd.currentUserId) = true := by
      rw [hown]; exact beq_self_eq_true _
    have hdel : deletePost s id bd = (⟨204, .empty⟩, { s with posts := removeById s.posts id }) := by
      simp [deletePost, htr, hp, hb]
    refine ⟨by rw [hdel], ?_⟩
    have hgone : findPost (removeById s.posts id) id = none :=
      findPost_removeById s.posts id hnd p hp
    rw [hdel]
    simp [deletePost, htr, hgone]

/-- Witness for C5: on a one-post store, GET/PUT/DELETE of an unknown id
give 404, and deleting post `p1` twice gives 204 then 404. -/
theorem nonexistent_id_404_witness :
    getPost ⟨[⟨"p1", 5, some "T", some "C", "u1", some true⟩], []⟩ "zzz" =
      ⟨404, .err "Post not found"⟩ ∧
    updatePost ⟨[⟨"p1", 5, some "T", some "C", "u1", some true⟩], []⟩ "zzz"
        ⟨some "X", some "Y", some false, some "u1"⟩ =
      (⟨404, .err "Post not found"⟩, ⟨[⟨"p1", 5, some "T", some "C", "u1", some true⟩], []⟩) ∧
    (deletePost ⟨[⟨"p1", 5, some "T", some "C", "u1", some true⟩], []⟩ "p1" ⟨some "u1"⟩).1 =
      ⟨204, .empty⟩ ∧
    deletePost (deletePost ⟨[⟨"p1", 5, some "T", some "C", "u1", some true⟩], []⟩ "p1"
        ⟨some "u1"⟩).2 "p1" ⟨some "u1"⟩ =
      (⟨404, .err "Post not found"⟩,
       (deletePost ⟨[⟨"p1", 5, some "T", some "C", "u1", some true⟩], []⟩ "p1" ⟨some "u1"⟩).2) := by
  have h := nonexistent_id_404 ⟨[⟨"p1", 5, some "T", some "C", "u1", some true⟩], []⟩ "zzz"
    ⟨some "X", some "Y", some false, some "u1"⟩ ⟨some "u1"⟩
  have h2 := nonexistent_id_404 ⟨[⟨"p1", 5, some "T", some "C", "u1", some true⟩], []⟩ "p1"
    ⟨some "X", some "Y", some false, some "u1"⟩ ⟨some "u1"⟩
  have hdup := h2.2 (by decide) ⟨"p1", 5, some "T", some "C", "u1", some true⟩
    (by decide) (by decide) (by decide)
  exact ⟨(h.1 (by decide)).1, (h.1 (by decide)).2.1 (by decide), hdup.1, hdup.2⟩

/-- Claim C3: POST with truthy `title`, `content`, `authorId` (and a
fresh generated id) responds 201 and stores the new post with
`published = true`, whatever `published` value the body carried (the
create path never reads it), and a subsequent GET of the returned id
yields that post, `published = true`, with its author included. -/
theorem create_forces_published (s : Store) (b : CreateBody)
    (freshId : String) (now : Nat)
    (ht : truthy b.title = true) (hc : truthy b.content = true)
    (ha : truthy b.authorId = true)
    (hfresh : ∀ p ∈ s.posts, p.id ≠ freshId) :
    createPost s b freshId now =
      (⟨201, .post ⟨freshId, now, b.title, b.content, b.authorId.getD "", some true⟩⟩,
       { s with posts :=
          s.posts ++ [⟨freshId, now, b.title, b.content, b.authorId.getD "", some true⟩] }) ∧
    getPost (createPost s b freshId now).2 freshId =
      ⟨200, .postWithAuthor ⟨⟨freshId, now, b.title, b.content, b.authorId.getD "", some true⟩,
        lookupAuthor s.users (b.authorId.getD "")⟩⟩ ∧
    (∀ pub, createPost s { b with published := pub } freshId now =
      createPost s b freshId now) := by
  have hfound := findPost_append_fresh s.posts
    ⟨freshId, now, b.title, b.content, b.authorId.getD "", some true⟩ hfresh
  refine ⟨?_, ?_, fun pub => rfl⟩
  · simp [createPost, ht, hc, ha]
  · simp [createPost, ht, hc, ha, getPost, hfound]

/-- Witness for C3: on a store with one user, creating a post that
supplies `published: false` still stores and returns `published = true`,
the GET of the fresh id sees it (author included), and the response is
identical whatever `published` the body carried. -/
theorem create_forces_published_witness :
    createPost ⟨[], [⟨"u1", "a@b.c"⟩]⟩ ⟨some "T", some "C", some "u1", some false⟩ "p9" 7 =
      (⟨201, .post ⟨"p9", 7, some "T", some "C", "u1", some true⟩⟩,
       ⟨[⟨"p9", 7, some "T", some "C", "u1", some true⟩], [⟨"u1", "a@b.c"⟩]⟩) ∧
    getPost (createPost ⟨[], [⟨"u1", "a@b.c"⟩]⟩
        ⟨some "T", some "C", some "u1", some false⟩ "p9" 7).2 "p9" =
      ⟨200, .postWithAuthor ⟨⟨"p9", 7, some "T", some "C", "u1", some true⟩,
        some ⟨"u1", "a@b.c"⟩⟩⟩ ∧
    createPost ⟨[], [⟨"u1", "a@b.c"⟩]⟩ ⟨some "T", some "C", some "u1", some true⟩ "p9" 7 =
      createPost ⟨[], [⟨"u1", "a@b.c"⟩]⟩ ⟨some "T", some "C", some "u1", some false⟩ "p9" 7 := by
  have h := create_forces_published ⟨[], [⟨"u1", "a@b.c"⟩]⟩
    ⟨some "T", some "C", some "u1", some false⟩ "p9" 7
    (by decide) (by decide) (by decide) (by decide)
  exact ⟨h.1, h.2.1, h.2.2 (some true)⟩

/-- Claim C7: an authorized PUT (truthy `currentUserId` equal to the
stored `authorId`) overwrites `title`, `content`, `published` of the
stored post with exactly the body's (possibly absent) values — an
absent field is written as absent/undefined, not left unchanged — while
`id`, `createdAt` and `authorId` are preserved; the response is 200
with the updated post. -/
theorem update_overwrites (s : Store) (id : String) (b : UpdateBody) (p : Post)
    (hp : findPost s.posts id = some p)
    (htr : truthy b.currentUserId = true)
    (hown : b.currentUserId = some p.authorId) :
    updatePost s id b =
      (⟨200, .post { p with title := b.title, content := b.content, published := b.published }⟩,
       { s with posts := replaceById s.posts id { p with title := b.title, content := b.content, published := b.published } }) ∧
    findPost (updatePost s id b).2.posts id =
      some { p with title := b.title, content := b.content, published := b.published } ∧
    (∀ q, findPost (updatePost s id b).2.posts id = some q →
      q.title = b.title ∧ q.content = b.content ∧ q.published = b.published ∧
      q.id = p.id ∧ q.createdAt = p.createdAt ∧ q.authorId = p.authorId) := by
  have hb : (some p.authorId == b.currentUserId) = true := by
    rw [hown]; exact beq_self_eq_true _
  have hp' : List.find? (fun q => q.id == id) s.posts = some p := hp
  have hpid : (p.id == id) = true := by simpa using List.find?_some hp'
  have heq : updatePost s id b =
      (⟨200, .post { p with title := b.title, content := b.content, published := b.published }⟩,
       { s with posts := replaceById s.posts id { p with title := b.title, content := b.content, published := b.published } }) := by
    simp [updatePost, htr, hp, hb]
  have hfound := findPost_replaceById s.posts id
    { p with title := b.title, content := b.content, published := b.published } hpid p hp
  refine ⟨heq, by rw [heq]; exact hfound, ?_⟩
  intro q hq
  rw [heq] at hq
  have : q = { p with title := b.title, content := b.content, published := b.published } := by
    have := hfound.symm.trans hq
    exact (Option.some.injEq _ _ ▸ this).symm
  subst this
  exact ⟨rfl, rfl, rfl, rfl, rfl, rfl⟩

/-- Witness for C7: updating post `p1` (author `u1`) with a body where
`title` and `published` are absent writes those fields as absent
(they were `some` before), keeps `id`/`createdAt`/`authorId`, and
responds 200 with the updated post. -/
theorem update_overwrites_witness :
    updatePost ⟨[⟨"p1", 5, some "T", some "C", "u1", some true⟩], []⟩ "p1"
        ⟨none, some "C2", none, some "u1"⟩ =
      (⟨200, .post ⟨"p1", 5, none, some "C2", "u1", none⟩⟩,
       ⟨[⟨"p1", 5, none, some "C2", "u1", none⟩], []⟩) ∧
    findPost (updatePost ⟨[⟨"p1", 5, some "T", some "C", "u1", some true⟩], []⟩ "p1"
        ⟨none, some "C2", none, some "u1"⟩).2.posts "p1" =
      some ⟨"p1", 5, none, some "C2", "u1", none⟩ := by
  have h := update_overwrites ⟨[⟨"p1", 5, some "T", some "C", "u1", some true⟩], []⟩ "p1"
    ⟨none, some "C2", none, some "u1"⟩ ⟨"p1", 5, some "T", some "C", "u1", some true⟩
    (by decide) (by decide) (by decide)
  exact ⟨h.1, h.2.1⟩

/-- Claim C4: `GET /api/posts` responds 200 with exactly the stored
posts (a permutation — the full collection, no pagination), ordered so
that any post listed before another has `createdAt` at least as large,
each augmented with exactly its author's `id` and `email` (the
`AuthorInfo` projection has no other fields). -/
theorem list_posts_ordered (s : Store) :
    listPosts s = ⟨200, .postList (listPostsRows s)⟩ ∧
    List.Perm ((listPostsRows s).map PostWithAuthor.post) s.posts ∧
    List.Pairwise (fun a b => b.post.createdAt ≤ a.post.createdAt) (listPostsRows s) ∧
    ∀ x ∈ listPostsRows s, x.author = lookupAuthor s.users x.post.authorId := by
  refine ⟨rfl, ?_, ?_, ?_⟩
  · have hmap : (listPostsRows s).map PostWithAuthor.post
        = s.posts.insertionSort createdDesc := by
      have hcomp : (PostWithAuthor.post ∘ fun p =>
          (⟨p, lookupAuthor s.users p.authorId⟩ : PostWithAuthor)) = id := rfl
      rw [listPostsRows, List.map_map, hcomp, List.map_id]
    rw [hmap]
    exact List.perm_insertionSort createdDesc s.posts
  · have hs : List.Sorted createdDesc (s.posts.insertionSort createdDesc) :=
      List.sorted_insertionSort createdDesc s.posts
    exact List.Pairwise.map _ (fun a b h => h) hs
  · intro x hx
    simp only [listPostsRows, List.mem_map] at hx
    obtain ⟨p, _, rfl⟩ := hx
    rfl

/-- Claim C9: PUT and DELETE run `await c.req.json()` before the
authentication check and outside the `try` block, so a missing or
malformed body makes the handler throw (`Except.error`) before any
401/403/404 is produced, and any 401/403/404 the handlers do produce
comes from a successfully parsed body. -/
theorem json_parse_precedes_auth (s : Store) (id : String) :
    handlePut s id none = .error "SyntaxError: Unexpected end of JSON input" ∧
    handleDelete s id none = .error "SyntaxError: Unexpected end of JSON input" ∧
    (∀ rawBody, (handlePut s id rawBody).isOk = true → rawBody.isSome = true) ∧
    (∀ rawBody, (handleDelete s id rawBody).isOk = true → rawBody.isSome = true) ∧
    (∀ b, handlePut s id (some b) = .ok (updatePost s id b)) ∧
    (∀ b, handleDelete s id (some b) = .ok (deletePost s id b)) := by
  refine ⟨rfl, rfl, ?_, ?_, fun b => rfl, fun b => rfl⟩
  · intro rawBody h
    cases rawBody with
    | none => simp [handlePut, Except.isOk, Except.toBool] at h
    | some b => rfl
  · intro rawBody h
    cases rawBody with
    | none => simp [handleDelete, Except.isOk, Except.toBool] at h
    | some b => rfl

/-- Witness for C9: on the empty store, a malformed PUT body throws, a
well-formed PUT body yields a response (here the 401), and a
well-formed DELETE body reaches `deletePost`. -/
theorem json_parse_precedes_auth_witness :
    handlePut ⟨[], []⟩ "p1" none = .error "SyntaxError: Unexpected end of JSON input" ∧
    (some (⟨none, none, none, some "u1"⟩ : UpdateBody)).isSome = true ∧
    handleDelete ⟨[], []⟩ "p1" (some ⟨some "u1"⟩) =
      .ok (deletePost ⟨[], []⟩ "p1" ⟨some "u1"⟩) := by
  have h := json_parse_precedes_auth ⟨[], []⟩ "p1"
  exact ⟨h.1, h.2.2.1 (some ⟨none, none, none, some "u1"⟩) (by decide),
         h.2.2.2.2.2 ⟨some "u1"⟩⟩

/-- Counterexample to claim C8 as stated: from the uninitialized state
(process start), two consecutive requests under a misconfigured
database URL (the falsy empty string) BOTH evaluate the configuration
check — it is evaluated per-request, not "once at process start": the
number of requests on which the check ran is 2, not at most 1.  (Both
requests do receive the plain-text 500, which is the part of the claim
that holds.) -/
theorem misconfig_checked_per_request :
    (runRequests none [some "", some ""]).map FetchResult.checkedConfig = [true, true] ∧
    ¬((runRequests none [some "", some ""]).countP FetchResult.checkedConfig ≤ 1) ∧
    (runRequests none [some "", some ""]).map FetchResult.earlyResponse =
      [some misconfigResponse, some misconfigResponse] := by
  refine ⟨rfl, by decide, rfl⟩

/-- Claim C8 (amended): if on every request the configuration value is
absent, the empty string, or lacks the `prisma://` prefix, then every
request from the uninitialized (process-start) state receives the
plain-text 500 `misconfigResponse` before any route handler runs
(`earlyResponse` is `some`), the client singleton stays uninitialized,
and the condition is re-evaluated on each request (not once at process
start). -/
theorem misconfig_500_every_request (envs : List (Option String))
    (hbad : ∀ e ∈ envs, validDbUrl e = false) :
    ∀ r ∈ runRequests none envs,
      r.earlyResponse = some misconfigResponse ∧
      r.newPrisma = none ∧ r.checkedConfig = true := by
  induction envs with
  | nil => intro r hr; simp [runRequests] at hr
  | cons e es ih =>
    intro r hr
    have he : validDbUrl e = false := hbad e (List.mem_cons_self e es)
    have hstep : workerFetch none e = ⟨some misconfigResponse, none, true⟩ := by
      simp [workerFetch, he]
    rw [runRequests, hstep] at hr
    rcases List.mem_cons.mp hr with h | h
    · rw [h]
      exact ⟨rfl, rfl, rfl⟩
    · exact ih (fun x hx => hbad x (List.mem_cons_of_mem e hx)) r h

/-- Witness for the amended C8: two requests, one with the config value
absent and one with a non-`prisma://` URL, both get the plain-text 500
with the singleton left uninitialized and the check evaluated. -/
theorem misconfig_500_every_request_witness :
    (workerFetch none (some "postgres://db")).earlyResponse = some misconfigResponse ∧
    (workerFetch none (some "postgres://db")).newPrisma = none ∧
    (workerFetch none (some "postgres://db")).checkedConfig = true := by
  have h := misconfig_500_every_request [none, some "postgres://db"] (by decide)
  exact h (workerFetch none (some "postgres://db"))
    (by simp [runRequests, workerFetch, validDbUrl])

/-- Once the singleton holds a client, a `fetch` call delegates to the
app without evaluating the configuration check, whatever the current
environment value is. -/
theorem workerFetch_initialized (u : String) (env : Option String) :
    workerFetch (some u) env = ⟨none, some u, false⟩ := rfl

/-- Claim C10: after a first request initializes the singleton from a
valid configuration value, every subsequent request — even with an
absent or malformed configuration value — skips the validity check,
is delegated to the app, and sees the same connection handle: the
first successful initialization fixes it for the process lifetime. -/
theorem singleton_fixed_after_init (env0 : Option String) (envs : List (Option String))
    (hval : validDbUrl env0 = true) :
    runRequests none (env0 :: envs) =
      ⟨none, env0, true⟩ :: envs.map (fun _ => ⟨none, env0, false⟩) := by
  obtain ⟨u, rfl⟩ : ∃ u, env0 = some u := by
    cases env0 with
    | none => simp [validDbUrl] at hval
    | some u => exact ⟨u, rfl⟩
  have hstep : workerFetch none (some u) = ⟨none, some u, true⟩ := by
    simp [workerFetch, hval]
  have hrest : ∀ es : List (Option String),
      runRequests (some u) es = es.map (fun _ => (⟨none, some u, false⟩ : FetchResult)) := by
    intro es
    induction es with
    | nil => rfl
    | cons e es ih => rw [runRequests, workerFetch_initialized]; simp [ih]
  rw [runRequests, hstep]
  simp [hrest envs]

/-- Witness for C10: a valid first configuration followed by an absent
and then a malformed value — only the first request checks, all are
delegated, and the handle stays the one from the first request. -/
theorem singleton_fixed_after_init_witness :
    runRequests none [some "prisma://db", none, some "bad"] =
      [⟨none, some "prisma://db", true⟩,
       ⟨none, some "prisma://db", false⟩,
       ⟨none, some "prisma://db", false⟩] := by
  have h := singleton_fixed_after_init (some "prisma://db") [none, some "bad"] (by decide)
  simpa using h

end DailyFish
